import Mathlib

/-!
Shallow embedding of the deterministic mock-advice generator
`buildMockAdvice` of `src/index.js` (lines 24-67) of the
neurofuel-backend repository, together with theorems settling the
claims about it.

Modelling conventions:
* JS numbers are modelled as `ℚ` plus an explicit NaN marker (`JNum`).
  The engine only multiplies, subtracts, compares and rounds, so exact
  rational arithmetic and IEEE-754 double arithmetic agree on every
  value the claims touch; general float printing is out of scope and
  only the integer and half-integer cases (the only ones the engine
  produces) are rendered.
* JSON body values that can reach the engine are modelled by `JSVal`:
  `undefined`, `null`, a number, or a string.  The strings of this
  universe stand for strings whose `Number` coercion is NaN
  (non-numeric strings); a numeric string is represented by `num` of
  its coerced value.
* `String.length`/`take` count characters where JS counts UTF-16 code
  units; these agree on all inputs considered here.
* A JS exception is modelled as `Option.none`: the one exception path
  (property access on a `null` userProfile, which the destructuring
  default `userProfile = {}` does not catch) returns `none`.
-/

attribute [local semireducible] Rat.add Rat.sub Rat.mul Rat.inv Rat.ofScientific

namespace NeuroFuel

/-- A JS number: either NaN or an exact rational value. -/
inductive JNum where
  | nan : JNum
  | num : ℚ → JNum
deriving DecidableEq

/-- JS values (of the shapes that can reach the engine from a JSON body). -/
inductive JSVal where
  | undef : JSVal
  | null : JSVal
  | num : ℚ → JSVal
  | str : String → JSVal
deriving DecidableEq

/-- Is the value `null` or `undefined` (the values `??` skips)? -/
def nullish : JSVal → Bool
  | .undef => true
  | .null => true
  | _ => false

/-- JS nullish coalescing `a ?? b`. -/
def coalesce (a b : JSVal) : JSVal := if nullish a then b else a

/-- JS `Number(v)` on the modelled universe: `undefined ↦ NaN`,
`null ↦ 0`, numbers are themselves, and the strings of the universe
(non-numeric strings) coerce to NaN. -/
def toNumber : JSVal → JNum
  | .undef => .nan
  | .null => .num 0
  | .num q => .num q
  | .str _ => .nan

/-- JS truthiness on the modelled universe (`undefined`, `null`, `0`
and `""` are falsy). -/
def truthy : JSVal → Bool
  | .undef => false
  | .null => false
  | .num q => decide (q ≠ 0)
  | .str s => decide (s ≠ "")

/-- JS `a || b` on values (keep `a` when truthy, else `b`). -/
def jsvalOr (a b : JSVal) : JSVal := if truthy a then a else b

/-- JS subtraction: NaN propagates. -/
def JNum.sub : JNum → JNum → JNum
  | .nan, _ => .nan
  | _, .nan => .nan
  | .num a, .num b => .num (a - b)

/-- JS `Math.max`: NaN propagates. -/
def mathMax : JNum → JNum → JNum
  | .nan, _ => .nan
  | _, .nan => .nan
  | .num a, .num b => .num (max a b)

/-- JS `x > q` for a number `x` and a rational literal `q`: any
comparison with NaN is false. -/
def JNum.gtQ : JNum → ℚ → Bool
  | .nan, _ => false
  | .num x, q => decide (q < x)

/-- JS `x || d` where `x` is a number and `d` a nonzero numeric
literal: NaN and 0 are falsy and give `d`. -/
def JNum.orQ : JNum → ℚ → ℚ
  | .nan, d => d
  | .num q, d => if q = 0 then d else q

/-- JS `Math.round` on an exact value: nearest integer, ties toward
positive infinity. -/
def jsRound (q : ℚ) : ℤ := Rat.floor (q + 1/2)

/-- JS `Math.min` on two (non-NaN) numbers. -/
def mathMinQ (a b : ℚ) : ℚ := if a ≤ b then a else b

/-- JS `Math.max` on two (non-NaN) numbers. -/
def mathMaxQ (a b : ℚ) : ℚ := if a ≤ b then b else a

/-- Render the numbers the engine actually produces the way JS does:
integers without a decimal point, half-integers with a trailing `.5`.
(Full double-to-string conversion is beyond scope; the last branch is
unreachable for the engine outputs.) -/
def fmt (q : ℚ) : String :=
  if q.den = 1 then toString q.num
  else if q.den = 2 ∧ 0 < q then toString (q.num / 2) ++ ".5"
  else toString q.num ++ "/" ++ toString q.den

/-- JS string conversion `String(v)` on the modelled universe.  (The
`null`/`undefined` branches are unreachable behind the `||` guards of
the engine, where `.toString()` is applied only to truthy values.) -/
def toStringJS : JSVal → String
  | .undef => "undefined"
  | .null => "null"
  | .num q => fmt q
  | .str s => s

/-- JS `s.slice(0, n)`. -/
def jsSlice (s : String) (n : Nat) : String := String.mk (s.data.take n)

/-- The user-profile object: only `weight` and `goalWeight` are ever
read by the engine (`src/index.js` lines 25-26); an absent field is
`undef`. -/
structure UserProfileObj where
  weight : JSVal
  goalWeight : JSVal
deriving DecidableEq

/-- The `userProfile` argument itself: `undefined` (destructuring
default applies), `null` (property access throws), or an object. -/
inductive JObj where
  | undef : JObj
  | null : JObj
  | obj : UserProfileObj → JObj
deriving DecidableEq

/-- An empty profile object `{}`. -/
def emptyProfile : UserProfileObj := ⟨.undef, .undef⟩

/-- The output payload (`src/index.js` lines 60-66, before
`JSON.stringify`). -/
structure AdvicePayload where
  hydrationL : ℚ
  proteinG : ℚ
  phase : String
  rules : List String
  notes : String
deriving DecidableEq

/-- Line 25: `const weight = Number(userProfile.weight ?? 255.3)`. -/
def weightOf (o : UserProfileObj) : JNum :=
  toNumber (coalesce o.weight (.num (2553/10)))

/-- Line 26: `const goalWeight = Number(userProfile.goalWeight ?? 190)`. -/
def goalWeightOf (o : UserProfileObj) : JNum :=
  toNumber (coalesce o.goalWeight (.num 190))

/-- Line 27: `const delta = Math.max(0, weight - goalWeight)`. -/
def deltaOf (o : UserProfileObj) : JNum :=
  mathMax (.num 0) (JNum.sub (weightOf o) (goalWeightOf o))

/-- Line 30:
`Math.min(230, Math.max(120, Math.round(0.8 * (goalWeight || 190))))`. -/
def proteinOf (o : UserProfileObj) : ℚ :=
  mathMinQ 230 (mathMaxQ 120 ((jsRound (4/5 * (goalWeightOf o).orQ 190) : ℤ) : ℚ))

/-- Modelled from the spec wording of the C1 property (for comparison
with the code): `clamp(round(0.8 * goalWeight), 120, 230)`. -/
def spec_proteinG (goalWeight : ℚ) : ℚ :=
  mathMinQ 230 (mathMaxQ 120 ((jsRound (4/5 * goalWeight) : ℤ) : ℚ))

/-- Line 33: `Math.min(5, Math.max(3, 3 + (delta > 30 ? 0.5 : 0)))`. -/
def hydrationOf (o : UserProfileObj) : ℚ :=
  mathMinQ 5 (mathMaxQ 3 (3 + (if (deltaOf o).gtQ 30 then (1/2 : ℚ) else 0)))

/-- Line 36: `(protocol || 'Keto').toString()`. -/
def phaseOf (protocol : JSVal) : String :=
  toStringJS (jsvalOr protocol (.str "Keto"))

/-- Lowercase a string the way the `/i` flag does (ASCII letters; the
inputs considered contain no letters outside ASCII). -/
def jsLower (s : String) : List Char := s.data.map Char.toLower

/-- JS regex `\s` on the characters occurring here (space, tab, line
and page breaks). -/
def isJsWs (c : Char) : Bool :=
  c = ' ' || c = '\t' || c = '\n' || c = '\r' || c.toNat = 11 || c.toNat = 12

/-- Does `fat\s*fast` match at the head of the character list?
(`\s*` followed by a non-whitespace literal matches exactly by
skipping the maximal whitespace run.) -/
def fatFastAt (cs : List Char) : Bool :=
  match cs with
  | 'f' :: 'a' :: 't' :: rest =>
      match rest.dropWhile isJsWs with
      | 'f' :: 'a' :: 's' :: 't' :: _ => true
      | _ => false
  | _ => false

/-- Does `fat\s*fast` match anywhere in the character list? -/
def fatFastIn : List Char → Bool
  | [] => false
  | c :: cs => fatFastAt (c :: cs) || fatFastIn cs

/-- Line 46: `/fat\s*fast/i.test(normalizedPhase)`. -/
def testFatFast (s : String) : Bool := fatFastIn (jsLower s)

/-- Does `pat` occur as a contiguous subsequence? -/
def containsSeq (pat : List Char) : List Char → Bool
  | [] => pat.isEmpty
  | c :: cs => pat.isPrefixOf (c :: cs) || containsSeq pat cs

/-- Line 49: `/psmf/i.test(normalizedPhase)`. -/
def testPsmf (s : String) : Bool :=
  containsSeq ['p', 's', 'm', 'f'] (jsLower s)

/-- The five baseline rules (lines 38-44), templated on the protein and
hydration targets. -/
def baseRules (proteinG hydrationL : ℚ) : List String :=
  [ "Hit ≥ " ++ fmt proteinG ++ " g protein today (shakes + meal 3).",
    "Hydration: " ++ fmt hydrationL ++ " L by bedtime (500–750 mL every 2–3h).",
    "Stop last meal 5–6h before sleep.",
    "Log symptoms (migraine, nausea, IBS) and meds.",
    "Movement: 40 min baseline (80% low intensity, 20% HIIT) if energy ok." ]

/-- Line 47: the rule unshifted on a fat-fast match. -/
def fatFastRule : String := "Fat Fast: 1000–1200 kcal, 85–90% fat, 3 days max."

/-- Line 50: the rule unshifted on a PSMF match. -/
def psmfRule : String := "PSMF: 180–190 g protein, very low fat/carbs, electrolytes daily."

/-- Line 54: the rule pushed for truthy doctor notes:
"Note from doctor plan considered: " + `String(doctorNotes).slice(0,120)` + "...". -/
def doctorRule (dn : JSVal) : String :=
  "Note from doctor plan considered: " ++ jsSlice (toStringJS dn) 120 ++ "..."

/-- Lines 38-55: build the rule list.  `unshift` is cons at the front
(fat-fast check first, PSMF check second, so a PSMF match lands in
front of a fat-fast match); `push` is append at the back. -/
def rulesOf (o : UserProfileObj) (protocol doctorNotes : JSVal) : List String :=
  let phase := phaseOf protocol
  let rules := baseRules (proteinOf o) (hydrationOf o)
  let rules := if testFatFast phase then fatFastRule :: rules else rules
  let rules := if testPsmf phase then psmfRule :: rules else rules
  if truthy doctorNotes then rules ++ [doctorRule doctorNotes] else rules

/-- Lines 57-58: the constant `notes` text. -/
def mockNotes : String :=
  "Mock mode active. This advice is generated locally for development. When API billing is ready, disable mock to use NeuroFuel GPT."

/-- The body of `buildMockAdvice` for an actual profile object: the
payload of lines 60-66 before serialization. -/
def buildMockCore (o : UserProfileObj) (protocol doctorNotes : JSVal) : AdvicePayload :=
  { hydrationL := hydrationOf o
    proteinG := proteinOf o
    phase := phaseOf protocol
    rules := rulesOf o protocol doctorNotes
    notes := mockNotes }

/-- Destructuring default of line 24: applies only to `undefined`. -/
def defUndef (v d : JSVal) : JSVal :=
  match v with
  | .undef => d
  | _ => v

/-- `buildMockAdvice` up to serialization.  The parameter defaults of
line 24 (`userProfile = {}`, `protocol = 'Keto'`, `doctorNotes = ''`)
fire only on `undefined`; a `null` userProfile reaches
`userProfile.weight` on line 25 and throws (`none`). -/
def buildMockAdvicePayload (userProfile : JObj) (protocol doctorNotes : JSVal) :
    Option AdvicePayload :=
  let prot := defUndef protocol (.str "Keto")
  let dn := defUndef doctorNotes (.str "")
  match userProfile with
  | .undef => some (buildMockCore emptyProfile prot dn)
  | .null => none
  | .obj o => some (buildMockCore o prot dn)

/-- One character of JSON string escaping as `JSON.stringify` does it. -/
def escapeChar (c : Char) : String :=
  if c = '"' then "\\\""
  else if c = '\\' then "\\\\"
  else if c = '\n' then "\\n"
  else if c = '\t' then "\\t"
  else if c = '\r' then "\\r"
  else if c.toNat = 8 then "\\b"
  else if c.toNat = 12 then "\\f"
  else if c.toNat < 32 then
    "\\u00" ++ String.mk [(Nat.digitChar (c.toNat / 16)), (Nat.digitChar (c.toNat % 16))]
  else String.mk [c]

/-- `JSON.stringify` of a string value. -/
def jsonStr (s : String) : String :=
  "\"" ++ String.join (s.data.map escapeChar) ++ "\""

/-- Lines 60-66: `JSON.stringify` of the payload, keys in source
order. -/
def stringifyPayload (p : AdvicePayload) : String :=
  "\x7b\"hydrationL\":" ++ fmt p.hydrationL ++
  ",\"proteinG\":" ++ fmt p.proteinG ++
  ",\"phase\":" ++ jsonStr p.phase ++
  ",\"rules\":[" ++ String.intercalate "," (p.rules.map jsonStr) ++
  "],\"notes\":" ++ jsonStr p.notes ++ "\x7d"

/-- The whole of `buildMockAdvice` (lines 24-67): a JSON string, or
`none` for the exception path. -/
def buildMockAdvice (userProfile : JObj) (protocol doctorNotes : JSVal) :
    Option String :=
  (buildMockAdvicePayload userProfile protocol doctorNotes).map stringifyPayload

/-! ## Helper lemmas -/

/-- The hydration expression of line 33 collapses to a two-valued
conditional: the clamp to `[3, 5]` never cuts. -/
theorem hydrationOf_eq_ite (o : UserProfileObj) :
    hydrationOf o = if (deltaOf o).gtQ 30 then 7/2 else 3 := by
  cases h : (deltaOf o).gtQ 30 <;> norm_num [hydrationOf, mathMinQ, mathMaxQ, h]

/-- Clamping the delta at 0 (line 27) does not change the `> 30` test. -/
theorem deltaOf_gtQ_eq (o : UserProfileObj) :
    (deltaOf o).gtQ 30 = (JNum.sub (weightOf o) (goalWeightOf o)).gtQ 30 := by
  unfold deltaOf mathMax
  cases h : JNum.sub (weightOf o) (goalWeightOf o) with
  | nan => rfl
  | num d => simp only [JNum.gtQ, decide_eq_decide, lt_max_iff]; norm_num

/-- The rule list always decomposes as phase prepends, the base block,
and the optional doctor-note rule. -/
theorem rulesOf_decomp (o : UserProfileObj) (prot dn : JSVal) :
    rulesOf o prot dn =
      ((if testPsmf (phaseOf prot) then [psmfRule] else []) ++
        (if testFatFast (phaseOf prot) then [fatFastRule] else [])) ++
      baseRules (proteinOf o) (hydrationOf o) ++
      (if truthy dn then [doctorRule dn] else []) := by
  unfold rulesOf
  cases hff : testFatFast (phaseOf prot) <;> cases hp : testPsmf (phaseOf prot) <;>
    cases ht : truthy dn <;> simp [hff, hp, ht]

/-- Membership in an optional singleton. -/
theorem eq_of_mem_ite_singleton {c : Prop} [Decidable c] {r a : String}
    (h : r ∈ (if c then [a] else [])) : r = a := by
  by_cases hc : c
  · rw [if_pos hc] at h; simpa using h
  · rw [if_neg hc] at h; simp at h

/-- A 121-character doctor note (concrete witness input). -/
def longNote : String := String.mk (List.replicate 121 'a')

/-! ## Claims -/

/-- C1, corrected.  The claim reads
`proteinG = clamp(round(0.8 * goalWeight), 120, 230)` on all of
`[0, 1000]`, but line 30 computes `0.8 * (goalWeight || 190)` and `0`
is falsy in JS, so `goalWeight = 0` yields 152, not the claimed 120:
the code formula substitutes 190 for a zero goal weight. -/
theorem C1_protein_formula (wf prot dn : JSVal) (g : ℚ)
    (h0 : 0 ≤ g) (h1 : g ≤ 1000) :
    (buildMockCore ⟨wf, .num g⟩ prot dn).proteinG
      = spec_proteinG (if g = 0 then 190 else g) := by
  by_cases hg : g = 0 <;>
    simp [buildMockCore, proteinOf, spec_proteinG, goalWeightOf, coalesce,
      nullish, toNumber, JNum.orQ, hg]

/-- Witness for C1: `goalWeight = 190` is in range and gives the code
formula value (152). -/
theorem C1_protein_formula_witness :
    (0 : ℚ) ≤ 190 ∧ (190 : ℚ) ≤ 1000 ∧
    (buildMockCore ⟨.undef, .num 190⟩ .undef .undef).proteinG
      = spec_proteinG (if (190 : ℚ) = 0 then 190 else 190) :=
  ⟨by norm_num, by norm_num,
    C1_protein_formula .undef .undef .undef 190 (by norm_num) (by norm_num)⟩

/-- C1, counterexample: at `goalWeight = 0` the engine outputs 152
while the claimed formula gives 120. -/
theorem C1_counterexample :
    (buildMockCore ⟨.undef, .num 0⟩ .undef .undef).proteinG = 152 ∧
    spec_proteinG 0 = 120 ∧
    (buildMockCore ⟨.undef, .num 0⟩ .undef .undef).proteinG ≠ spec_proteinG 0 := by
  decide

/-- C2, corrected.  When the protocol label matches both tokens, the
list does have 7 rules, but in source order the fat-fast check
(line 46) unshifts first and the PSMF check (line 49) unshifts second,
so the PSMF rule ends up ahead of the fat-fast rule. -/
theorem C2_both_tokens (o : UserProfileObj) (s : String)
    (hff : testFatFast s = true) (hp : testPsmf s = true) :
    (buildMockCore o (.str s) .undef).rules
        = psmfRule :: fatFastRule :: baseRules (proteinOf o) (hydrationOf o) ∧
    (buildMockCore o (.str s) .undef).rules.length = 7 := by
  have hs : s ≠ "" := by
    intro he
    rw [he] at hp
    exact absurd hp (by decide)
  have hphase : phaseOf (.str s) = s := by
    simp [phaseOf, jsvalOr, truthy, hs, toStringJS]
  have hr : (buildMockCore o (.str s) .undef).rules
      = psmfRule :: fatFastRule :: baseRules (proteinOf o) (hydrationOf o) := by
    show rulesOf o (.str s) .undef = _
    simp [rulesOf, hphase, hff, hp, truthy]
  exact ⟨hr, by rw [hr]; simp [baseRules]⟩

/-- Witness for C2: the protocol `"PSMF Fat Fast"` matches both tokens
and produces the 7-rule list with the PSMF rule first. -/
theorem C2_both_tokens_witness :
    testFatFast "PSMF Fat Fast" = true ∧ testPsmf "PSMF Fat Fast" = true ∧
    ((buildMockCore emptyProfile (.str "PSMF Fat Fast") .undef).rules
        = psmfRule :: fatFastRule ::
            baseRules (proteinOf emptyProfile) (hydrationOf emptyProfile) ∧
      (buildMockCore emptyProfile (.str "PSMF Fat Fast") .undef).rules.length = 7) :=
  ⟨by decide, by decide,
    C2_both_tokens emptyProfile "PSMF Fat Fast" (by decide) (by decide)⟩

/-- C2, counterexample: for `protocol = "PSMF Fat Fast"` the first rule
is the PSMF rule and the second is the fat-fast rule, so the fat-fast
rule is not ordered ahead of the PSMF rule. -/
theorem C2_counterexample :
    (buildMockCore emptyProfile (.str "PSMF Fat Fast") .undef).rules.length = 7 ∧
    (buildMockCore emptyProfile (.str "PSMF Fat Fast") .undef).rules[0]? = some psmfRule ∧
    (buildMockCore emptyProfile (.str "PSMF Fat Fast") .undef).rules[1]? = some fatFastRule ∧
    psmfRule ≠ fatFastRule := by
  decide

/-- C3, code bug.  The engine is supposed to be total, but the
destructuring default `userProfile = {}` of line 24 fires only for
`undefined`: passing `userProfile: null` reaches `userProfile.weight`
on line 25 and throws a TypeError (modelled as `none`), while every
other modelled input shape returns a payload. -/
theorem C3_null_profile_throws :
    buildMockAdvice .null .undef .undef = none ∧
    buildMockAdvicePayload .null .undef .undef = none ∧
    (∀ (o : UserProfileObj) (prot dn : JSVal),
      buildMockAdvicePayload (.obj o) prot dn
        = some (buildMockCore o (defUndef prot (.str "Keto")) (defUndef dn (.str "")))) ∧
    (∀ (prot dn : JSVal),
      buildMockAdvicePayload .undef prot dn
        = some (buildMockCore emptyProfile (defUndef prot (.str "Keto")) (defUndef dn (.str "")))) :=
  ⟨rfl, rfl, fun _ _ _ => rfl, fun _ _ => rfl⟩

/-- C4, confirmed.  For every pair of profile field values the
hydration output is 3 or 3.5, it is 3.5 exactly when
`weight - goalWeight > 30` holds under JS comparison (false on NaN),
and it lies in `[3, 5]`. -/
theorem C4_hydration (wf gf prot dn : JSVal) :
    ((buildMockCore ⟨wf, gf⟩ prot dn).hydrationL = 3 ∨
      (buildMockCore ⟨wf, gf⟩ prot dn).hydrationL = 7/2) ∧
    ((buildMockCore ⟨wf, gf⟩ prot dn).hydrationL = 7/2 ↔
      (JNum.sub (weightOf ⟨wf, gf⟩) (goalWeightOf ⟨wf, gf⟩)).gtQ 30 = true) ∧
    3 ≤ (buildMockCore ⟨wf, gf⟩ prot dn).hydrationL ∧
    (buildMockCore ⟨wf, gf⟩ prot dn).hydrationL ≤ 5 := by
  have e : (buildMockCore ⟨wf, gf⟩ prot dn).hydrationL
      = if (JNum.sub (weightOf ⟨wf, gf⟩) (goalWeightOf ⟨wf, gf⟩)).gtQ 30
          then 7/2 else 3 := by
    rw [show (buildMockCore ⟨wf, gf⟩ prot dn).hydrationL = hydrationOf ⟨wf, gf⟩ from rfl,
      hydrationOf_eq_ite, deltaOf_gtQ_eq]
  rw [e]
  cases (JNum.sub (weightOf ⟨wf, gf⟩) (goalWeightOf ⟨wf, gf⟩)).gtQ 30 <;> norm_num

/-- C5, corrected.  Absent (`undefined` or `null`) fields do coerce to
the defaults, but a non-numeric value coerces to NaN, not to the
default: `Number(userProfile.weight ?? 255.3)` only defaults nullish
values.  A NaN weight makes the `delta > 30` test false, so the output
differs from the explicit-defaults output (hydration 3 instead of 3.5). -/
theorem C5_absent_fields_default (wf gf prot dn : JSVal) :
    buildMockCore ⟨.undef, gf⟩ prot dn = buildMockCore ⟨.num (2553/10), gf⟩ prot dn ∧
    buildMockCore ⟨.null, gf⟩ prot dn = buildMockCore ⟨.num (2553/10), gf⟩ prot dn ∧
    buildMockCore ⟨wf, .undef⟩ prot dn = buildMockCore ⟨wf, .num 190⟩ prot dn ∧
    buildMockCore ⟨wf, .null⟩ prot dn = buildMockCore ⟨wf, .num 190⟩ prot dn :=
  ⟨rfl, rfl, rfl, rfl⟩

/-- C5, counterexample: a non-numeric `weight` string gives
hydration 3, while the explicit defaults give 3.5, so the outputs are
not equal. -/
theorem C5_counterexample :
    (buildMockCore ⟨.str "heavy", .undef⟩ .undef .undef).hydrationL = 3 ∧
    (buildMockCore ⟨.num (2553/10), .num 190⟩ .undef .undef).hydrationL = 7/2 ∧
    buildMockCore ⟨.str "heavy", .undef⟩ .undef .undef
      ≠ buildMockCore ⟨.num (2553/10), .num 190⟩ .undef .undef := by
  decide

/-- C6, confirmed.  The default call (empty profile object, protocol
and notes absent) yields hydration 3.5, protein 152, phase `"Keto"`,
and exactly the five base rules. -/
theorem C6_default_call :
    buildMockAdvicePayload (.obj emptyProfile) .undef .undef
      = some { hydrationL := 7/2, proteinG := 152, phase := "Keto",
                rules := baseRules 152 (7/2), notes := mockNotes } ∧
    (baseRules 152 (7/2)).length = 5 := by
  decide

/-- C7, confirmed.  Whenever the engine returns a payload, its rule
list is some phase rules, then the five base rules as one contiguous
block, then the doctor-note rule exactly when the notes are truthy. -/
theorem C7_rules_blocks (u : JObj) (prot dn : JSVal) (p : AdvicePayload)
    (h : buildMockAdvicePayload u prot dn = some p) :
    ∃ pre post,
      p.rules = pre ++ baseRules p.proteinG p.hydrationL ++ post ∧
      (∀ r ∈ pre, r = fatFastRule ∨ r = psmfRule) ∧
      post = (if truthy (defUndef dn (.str "")) then
                [doctorRule (defUndef dn (.str ""))] else []) := by
  have core : ∀ o : UserProfileObj,
      p = buildMockCore o (defUndef prot (.str "Keto")) (defUndef dn (.str "")) →
      ∃ pre post,
        p.rules = pre ++ baseRules p.proteinG p.hydrationL ++ post ∧
        (∀ r ∈ pre, r = fatFastRule ∨ r = psmfRule) ∧
        post = (if truthy (defUndef dn (.str "")) then
                  [doctorRule (defUndef dn (.str ""))] else []) := by
    intro o hp
    subst hp
    refine ⟨(if testPsmf (phaseOf (defUndef prot (.str "Keto"))) then [psmfRule] else []) ++
        (if testFatFast (phaseOf (defUndef prot (.str "Keto"))) then [fatFastRule] else []),
      (if truthy (defUndef dn (.str "")) then [doctorRule (defUndef dn (.str ""))] else []),
      ?_, ?_, rfl⟩
    · exact rulesOf_decomp o _ _
    · intro r hr
      rcases List.mem_append.1 hr with h1 | h1
      · exact Or.inr (eq_of_mem_ite_singleton h1)
      · exact Or.inl (eq_of_mem_ite_singleton h1)
  cases u with
  | null => exact absurd h (by simp [buildMockAdvicePayload])
  | undef =>
      refine core emptyProfile ?_
      have := h.symm
      simpa [buildMockAdvicePayload] using this
  | obj o =>
      refine core o ?_
      have := h.symm
      simpa [buildMockAdvicePayload] using this

/-- Witness for C7: the default call returns a payload and the
decomposition applies to it. -/
theorem C7_rules_blocks_witness :
    buildMockAdvicePayload (.obj emptyProfile) .undef .undef
        = some (buildMockCore emptyProfile (.str "Keto") (.str "")) ∧
    ∃ pre post,
      (buildMockCore emptyProfile (.str "Keto") (.str "")).rules
        = pre ++ baseRules (buildMockCore emptyProfile (.str "Keto") (.str "")).proteinG
            (buildMockCore emptyProfile (.str "Keto") (.str "")).hydrationL ++ post ∧
      (∀ r ∈ pre, r = fatFastRule ∨ r = psmfRule) ∧
      post = (if truthy (defUndef (JSVal.undef) (.str "")) then
                [doctorRule (defUndef (JSVal.undef) (.str ""))] else []) :=
  ⟨rfl, C7_rules_blocks (.obj emptyProfile) .undef .undef
      (buildMockCore emptyProfile (.str "Keto") (.str "")) rfl⟩

/-- C8, confirmed.  For a doctor-notes string longer than 120
characters, the final rule is the fixed prefix, the first 120
characters of the notes, then `"..."`. -/
theorem C8_truncation (o : UserProfileObj) (prot : JSVal) (s : String)
    (h : 120 < s.length) :
    (buildMockCore o prot (.str s)).rules.getLast?
      = some ("Note from doctor plan considered: "
          ++ String.mk (s.data.take 120) ++ "...") := by
  have hs : s ≠ "" := by
    intro he
    rw [he] at h
    exact absurd h (by decide)
  have ht : truthy (.str s) = true := by simp [truthy, hs]
  show (rulesOf o prot (.str s)).getLast? = _
  unfold rulesOf
  rw [ht]
  simp only [if_true]
  rw [List.getLast?_concat]
  rfl

/-- Witness for C8 at a 121-character note. -/
theorem C8_truncation_witness :
    120 < longNote.length ∧
    (buildMockCore emptyProfile .undef (.str longNote)).rules.getLast?
      = some ("Note from doctor plan considered: "
          ++ String.mk (longNote.data.take 120) ++ "...") :=
  ⟨by decide, C8_truncation emptyProfile .undef longNote (by decide)⟩

/-- C9, confirmed.  The embedding of the engine is a pure function of
its three arguments (it needed no state, environment or effect
parameter to model the source), so two calls at identical inputs
produce identical serialized output. -/
theorem C9_deterministic (u1 u2 : JObj) (p1 p2 d1 d2 : JSVal)
    (hu : u1 = u2) (hp : p1 = p2) (hd : d1 = d2) :
    buildMockAdvice u1 p1 d1 = buildMockAdvice u2 p2 d2 := by
  rw [hu, hp, hd]

/-- Witness for C9 at the default call. -/
theorem C9_deterministic_witness :
    JObj.obj emptyProfile = JObj.obj emptyProfile ∧
    buildMockAdvice (.obj emptyProfile) .undef .undef
      = buildMockAdvice (.obj emptyProfile) .undef .undef :=
  ⟨rfl, C9_deterministic (.obj emptyProfile) (.obj emptyProfile)
      .undef .undef .undef .undef rfl rfl rfl⟩

/-- C10, confirmed.  For any truthy (non-empty) doctor-notes string of
at most 120 characters, nothing is truncated and yet the appended rule
still ends with `"..."`: the ellipsis of line 54 is unconditional. -/
theorem C10_ellipsis_always (o : UserProfileObj) (prot : JSVal) (s : String)
    (hne : s ≠ "") (hlen : s.length ≤ 120) :
    (buildMockCore o prot (.str s)).rules.getLast?
      = some ("Note from doctor plan considered: " ++ s ++ "...") := by
  have ht : truthy (.str s) = true := by simp [truthy, hne]
  have hslice : jsSlice s 120 = s := by
    unfold jsSlice
    rw [List.take_of_length_le hlen]
  show (rulesOf o prot (.str s)).getLast? = _
  unfold rulesOf
  rw [ht]
  simp only [if_true]
  rw [List.getLast?_concat]
  show some (doctorRule (.str s)) = _
  rw [show doctorRule (.str s)
      = "Note from doctor plan considered: " ++ jsSlice s 120 ++ "..." from rfl, hslice]

/-- Witness for C10 at the 4-character note `"rest"`. -/
theorem C10_ellipsis_always_witness :
    "rest" ≠ "" ∧ String.length "rest" ≤ 120 ∧
    (buildMockCore emptyProfile .undef (.str "rest")).rules.getLast?
      = some ("Note from doctor plan considered: " ++ "rest" ++ "...") :=
  ⟨by decide, by decide,
    C10_ellipsis_always emptyProfile (.undef) "rest" (by decide) (by decide)⟩

end NeuroFuel
